import Mathlib

/-!
# Verification of the HomeLab-Dashboard health & API-detection engine

Shallow embedding, in Lean, of the decision logic of the repository's core:

* `src/dashboard/models.py` — liveness classifier (`is_service_up`) and the
  health prober (`Service.check_health`);
* `src/dashboard/utils/api_detector.py` — API endpoint scanner
  (`APIDetector.probe_api_endpoints`);
* `src/dashboard/utils/generic_api_client.py` — authenticated request
  executor (`GenericAPIClient.request`, `GenericAPIClient.__init__`);
* `src/dashboard/utils/traefik_service.py` — detection scheduler / backoff
  and the per-service sync cycle (`sync_traefik_services`).

Network effects are modelled by passing the outcome of each HTTP exchange
(the response, or the kind of transport exception raised) as an explicit
argument; timestamps are natural numbers (seconds); Python's falsy empty
string is modelled by `""` and `None` by `Option.none`.
-/

namespace HomeLab

/-- Python `s.startswith(p)`, on the underlying character lists. -/
def startsWithStr (p s : String) : Bool :=
  p.data.isPrefixOf s.data

/-- Python `s.endswith(p)`, on the underlying character lists. -/
def endsWithStr (p s : String) : Bool :=
  p.data.isSuffixOf s.data

/-- Python `needle in haystack` (substring containment). -/
def containsStr (needle hay : String) : Bool :=
  decide (needle.data <:+: hay.data)

/-! ## Liveness classifier and health prober (`src/dashboard/models.py`) -/

/-- The three values of `Service.status` (`SERVICE_STATUS_CHOICES`). -/
inductive SStatus
  | up
  | down
  | unknown
  deriving DecidableEq, Repr

/-- `is_service_up` from `Service.check_health` (models.py lines 94–115):
pure classification of an HTTP status code into up/down. -/
def is_service_up (status_code : Nat) : Bool :=
  if 200 ≤ status_code ∧ status_code < 300 then true
  else if 300 ≤ status_code ∧ status_code < 400 then true
  else if status_code = 401 then true
  else if status_code = 403 then true
  else if status_code = 405 then true
  else false

/-- Outcome of one `requests.get` call inside `check_health`: either a
completed exchange (status code and elapsed milliseconds) or the kind of
exception raised. -/
inductive ReqResult
  | ok (status : Nat) (elapsedMs : Nat)
  | sslError
  | timeout
  | connError
  | otherError
  deriving DecidableEq, Repr

/-- The fields of a `Service` row that `check_health` reads or writes. -/
structure ProbeState where
  url : String
  status : SStatus
  responseTime : Option Nat
  statusChangedAt : Option Nat
  lastChecked : Option Nat
  deriving DecidableEq, Repr

/-- Status, response time and (possibly rewritten) URL computed by the body
of `Service.check_health` (models.py lines 117–212), before the epilogue. -/
structure ProbeOutcome where
  status : SStatus
  responseTime : Option Nat
  url : String
  deriving DecidableEq, Repr

/-- The try/except cascade of `Service.check_health` (models.py lines
117–212).  `r1` is the initial verified GET on `url`; `r2` the retry with
certificate verification disabled after an `SSLError`; `r3` the plain-http
fallback after a `ConnectionError` (issued only when the URL is https).
An exception inside the `SSLError` retry is caught by the inner
`except Exception` (line 162) and yields down with no further fallback. -/
def checkHealthCore (url : String) (r1 r2 r3 : ReqResult) : ProbeOutcome :=
  match r1 with
  | .ok s ms => ⟨if is_service_up s then .up else .down, some ms, url⟩
  | .sslError =>
    match r2 with
    | .ok s ms => ⟨if is_service_up s then .up else .down, some ms, url⟩
    | _ => ⟨.down, none, url⟩
  | .timeout => ⟨.down, none, url⟩
  | .connError =>
    if startsWithStr "https://" url then
      -- line 177: self.url.replace('https://', 'http://', 1)
      let httpUrl := "http://" ++ url.drop 8
      match r3 with
      | .ok s ms =>
        if is_service_up s then ⟨.up, some ms, httpUrl⟩
        else ⟨.down, none, url⟩
      | _ => ⟨.down, none, url⟩
    else ⟨.down, none, url⟩
  | .otherError => ⟨.down, none, url⟩

/-- `Service.check_health` (models.py lines 83–222): runs the probe cascade
then the epilogue (lines 214–220) that stamps `status_changed_at` exactly on
a verdict transition and always refreshes `last_checked`. -/
def check_health (st : ProbeState) (now : Nat) (r1 r2 r3 : ReqResult) : ProbeState :=
  let o := checkHealthCore st.url r1 r2 r3
  { url := o.url
    status := o.status
    responseTime := o.responseTime
    statusChangedAt := if st.status ≠ o.status then some now else st.statusChangedAt
    lastChecked := some now }

/-- C1: the liveness classifier is a pure function of the status code and
returns up exactly on 200–299, 300–399, 401, 403 and 405, down on every
other code. -/
theorem is_service_up_characterization (c : Nat) :
    is_service_up c =
      decide ((200 ≤ c ∧ c < 300) ∨ (300 ≤ c ∧ c < 400) ∨ c = 401 ∨ c = 403 ∨ c = 405) := by
  unfold is_service_up
  split_ifs with h1 h2 h3 h4 h5 <;> simp_all

/-- C7: a timeout on the initial GET yields verdict down with null response
time, and the result does not depend on the fallback request slots (no
fallback of any kind is consulted). -/
theorem check_health_timeout_no_fallback (st : ProbeState) (now : Nat)
    (r2 r3 r2' r3' : ReqResult) :
    (check_health st now .timeout r2 r3).status = .down ∧
    (check_health st now .timeout r2 r3).responseTime = none ∧
    check_health st now .timeout r2 r3 = check_health st now .timeout r2' r3' :=
  ⟨rfl, rfl, rfl⟩

/-- C8: `status_changed_at` is stamped to `now` exactly when the new verdict
differs from the one immediately before the probe; in particular a
successful up-classified probe of an already-up target leaves
`status_changed_at` untouched while still recording the response time. -/
theorem check_health_status_changed_iff (st : ProbeState) (now : Nat)
    (r1 r2 r3 : ReqResult) (s ms : Nat) :
    ((check_health st now r1 r2 r3).statusChangedAt =
      if st.status ≠ (check_health st now r1 r2 r3).status then some now
      else st.statusChangedAt) ∧
    (st.status = .up → is_service_up s = true →
      (check_health st now (.ok s ms) r2 r3).statusChangedAt = st.statusChangedAt ∧
      (check_health st now (.ok s ms) r2 r3).responseTime = some ms) := by
  refine ⟨rfl, fun hup hok => ?_⟩
  simp [check_health, checkHealthCore, hok, hup]

/-- Witness for C8 at a concrete already-up target returning 200. -/
theorem check_health_status_changed_iff_witness :
    (check_health ⟨"http://a", .up, some 9, some 3, some 3⟩ 11 (.ok 200 7)
        .timeout .timeout).statusChangedAt = some 3 ∧
    (check_health ⟨"http://a", .up, some 9, some 3, some 3⟩ 11 (.ok 200 7)
        .timeout .timeout).responseTime = some 7 :=
  (check_health_status_changed_iff ⟨"http://a", .up, some 9, some 3, some 3⟩ 11
    (.ok 200 7) .timeout .timeout 200 7).2 rfl (by decide)

/-- C2 counterexample: when the initial GET raises an `SSLError` and the
TLS-relaxed retry then raises a `ConnectionError` on an https target whose
plain-http equivalent would answer 200, the code reports down and leaves the
URL unchanged — the claimed plaintext fallback after a step-2 connection
error never happens (the inner `except Exception` at models.py line 162
swallows it). -/
theorem check_health_step2_conn_counterexample :
    (check_health ⟨"https://svc", .up, none, none, none⟩ 5
        .sslError .connError (.ok 200 3)).status = .down ∧
    (check_health ⟨"https://svc", .up, none, none, none⟩ 5
        .sslError .connError (.ok 200 3)).url = "https://svc" :=
  ⟨rfl, rfl⟩

/-- C2 (amended): only a connection error raised by the *initial* request
triggers the plain-http fallback on an https target — and then an
up-classified fallback response yields verdict up with the stored URL
permanently rewritten to the http form; a connection error raised by the
TLS-relaxed retry of step 2 yields down with no fallback and no rewrite. -/
theorem check_health_http_fallback (st : ProbeState) (now s ms : Nat)
    (r2 r3 : ReqResult)
    (hhttps : startsWithStr "https://" st.url = true)
    (hup : is_service_up s = true) :
    ((check_health st now .connError r2 (.ok s ms)).status = .up ∧
     (check_health st now .connError r2 (.ok s ms)).url = "http://" ++ st.url.drop 8 ∧
     (check_health st now .connError r2 (.ok s ms)).responseTime = some ms) ∧
    ((check_health st now .sslError .connError r3).status = .down ∧
     (check_health st now .sslError .connError r3).url = st.url ∧
     (check_health st now .sslError .connError r3).responseTime = none) := by
  refine ⟨?_, rfl, rfl, rfl⟩
  simp [check_health, checkHealthCore, hhttps, hup]

/-- Witness for C2 (amended) on a concrete https target refusing the
connection whose plaintext equivalent answers 200. -/
theorem check_health_http_fallback_witness :
    (check_health ⟨"https://svc", .unknown, none, none, none⟩ 4
        .connError .timeout (.ok 200 6)).status = .up ∧
    (check_health ⟨"https://svc", .unknown, none, none, none⟩ 4
        .connError .timeout (.ok 200 6)).url = "http://svc" := by
  have h := check_health_http_fallback ⟨"https://svc", .unknown, none, none, none⟩
    4 200 6 .timeout .timeout (by decide) (by decide)
  exact ⟨h.1.1, h.1.2.1.trans (by decide)⟩

/-! ## API endpoint scanner (`src/dashboard/utils/api_detector.py`) -/

/-- `APIDetector.COMMON_ENDPOINTS` (api_detector.py lines 16–36). -/
def COMMON_ENDPOINTS : List String :=
  ["/api", "/api/v1", "/api/v2", "/api/v3", "/api/v1/system/status",
   "/api/v2/app/version", "/api/v2/auth/login", "/api/v3/system/status",
   "/api/system/status", "/api/version", "/api/status", "/api/health",
   "/health", "/healthz", "/System/Info/Public", "/identity",
   "/docs", "/swagger", "/api-docs"]

/-- A completed exchange for one candidate: status code and the
`Content-Type` header (defaulted to `""` when absent). -/
structure ScanResponse where
  status : Nat
  contentType : String
  deriving DecidableEq, Repr

/-- Outcome of probing one candidate: a completed exchange, or a swallowed
request exception (timeout / connection / other request error). -/
inductive ScanOutcome
  | resp (r : ScanResponse)
  | exn
  deriving DecidableEq, Repr

/-- Acceptance test `APIDetector.probe_api_endpoints` applies to a completed
exchange for one candidate (api_detector.py lines 96–107). -/
def acceptsCandidate (endpoint : String) (r : ScanResponse) : Bool :=
  if r.status ∈ [200, 401, 403] then
    if containsStr "application/json" r.contentType || r.status == 401 then true
    else if endpoint ∈ ["/docs", "/swagger", "/api-docs"] then
      containsStr "text/html" r.contentType
    else false
  else false

/-- The candidate loop of `probe_api_endpoints`: first accepted candidate
wins; exceptions continue to the next candidate. -/
def probeLoop (results : String → ScanOutcome) : List String → Bool × Option String
  | [] => (false, none)
  | e :: rest =>
    match results e with
    | .resp r => if acceptsCandidate e r then (true, some e) else probeLoop results rest
    | .exn => probeLoop results rest

/-- `APIDetector.probe_api_endpoints` (api_detector.py lines 67–120), with
the outcome of each candidate's GET supplied by `results`. -/
def probe_api_endpoints (results : String → ScanOutcome) : Bool × Option String :=
  probeLoop results COMMON_ENDPOINTS

/-- The acceptance condition exactly as claim C3 words it: status in
{200,401,403} with JSON content type or status 401; or a documentation path
with a 200 and HTML content type. -/
def claimC3Accepts (endpoint : String) (r : ScanResponse) : Bool :=
  (decide (r.status ∈ [200, 401, 403]) &&
    (containsStr "application/json" r.contentType || r.status == 401)) ||
  (decide (endpoint ∈ ["/docs", "/swagger", "/api-docs"]) && r.status == 200 &&
    containsStr "text/html" r.contentType)

/-- The acceptance condition as amended: the documentation-path branch fires
on any of 200, 401, 403 with an HTML content type, not on 200 alone. -/
def claimC3AmendedAccepts (endpoint : String) (r : ScanResponse) : Bool :=
  (decide (r.status ∈ [200, 401, 403]) &&
    (containsStr "application/json" r.contentType || r.status == 401)) ||
  (decide (endpoint ∈ ["/docs", "/swagger", "/api-docs"]) &&
    decide (r.status ∈ [200, 401, 403]) && containsStr "text/html" r.contentType)

/-- C3 counterexample: a 403 with HTML content type on `/docs` is accepted
by the code (the HTML-docs branch sits inside the `status in [200,401,403]`
test, api_detector.py line 96), while the claim's condition rejects it. -/
theorem accepts_docs_403_html_counterexample :
    acceptsCandidate "/docs" ⟨403, "text/html"⟩ = true ∧
    claimC3Accepts "/docs" ⟨403, "text/html"⟩ = false := by
  decide

/-- C3 (amended): a completed exchange is accepted as an API indicator iff
its status is 200, 401 or 403 and either the response declares a JSON
content type or the status is 401, or the candidate is a documentation path
(`/docs`, `/swagger`, `/api-docs`) whose status is 200, 401 or 403 with an
HTML content type. -/
theorem accepts_candidate_characterization (e : String) (r : ScanResponse) :
    acceptsCandidate e r = claimC3AmendedAccepts e r := by
  unfold acceptsCandidate claimC3AmendedAccepts
  by_cases hs : r.status ∈ [200, 401, 403] <;>
  by_cases hd : e ∈ ["/docs", "/swagger", "/api-docs"] <;>
  cases hj : (containsStr "application/json" r.contentType || r.status == 401) <;>
  simp [hs, hd, hj]

/-! ## Authenticated request executor (`src/dashboard/utils/generic_api_client.py`) -/

/-- Outcome of one attempt at the primary request inside
`GenericAPIClient.request`: a completed exchange or a raised transport
exception. -/
inductive HttpTry
  | ok (status : Nat) (body : String)
  | timeout
  | connError
  deriving DecidableEq, Repr

/-- What `GenericAPIClient.request` returns or raises:
`boolTrue` models `return True` on an empty body, `payload` the parsed
JSON/text body, `noneResult` `return None` (authentication could not be
established), the `err*` constructors the exceptions re-raised from the
`except` clauses (generic_api_client.py lines 346–360). -/
inductive ClientResult
  | boolTrue
  | payload (body : String)
  | noneResult
  | errHttp (status : Nat)
  | errTimeout
  | errConn
  deriving DecidableEq, Repr

/-- Result of one `request` call plus how many times the primary request
was issued and how many times mid-flight re-authentication was run. -/
structure ReqTrace where
  result : ClientResult
  primaryRequests : Nat
  reAuthRuns : Nat
  deriving DecidableEq, Repr

/-- `response.raise_for_status()` followed by the body parsing at
generic_api_client.py lines 331–344. -/
def finishResponse (status : Nat) (body : String) : ClientResult :=
  if 400 ≤ status ∧ status < 600 then .errHttp status
  else if body = "" then .boolTrue
  else .payload body

/-- Control flow of `GenericAPIClient.request` (generic_api_client.py lines
275–360).  `authedAtStart` models `self._token or self.session.cookies`;
`lazyAuthOk` the result of the lazy `authenticate()` call at line 290;
`reAuthOk` the result of the re-authentication triggered by a 401 at line
323; `try1`/`try2` the primary request and its single retry. -/
def clientRequest (authedAtStart lazyAuthOk reAuthOk : Bool)
    (try1 try2 : HttpTry) : ReqTrace :=
  if !authedAtStart && !lazyAuthOk then ⟨.noneResult, 0, 0⟩
  else
    match try1 with
    | .timeout => ⟨.errTimeout, 1, 0⟩
    | .connError => ⟨.errConn, 1, 0⟩
    | .ok s body =>
      if s = 401 then
        if reAuthOk then
          match try2 with
          | .timeout => ⟨.errTimeout, 2, 1⟩
          | .connError => ⟨.errConn, 2, 1⟩
          | .ok s2 body2 => ⟨finishResponse s2 body2, 2, 1⟩
        else ⟨.noneResult, 1, 1⟩
      else ⟨finishResponse s body, 1, 0⟩

/-- C4: a 401 on an authenticated request triggers exactly one
re-authentication and exactly one retry — never more than two primary
requests or one re-auth run in any execution — and a second 401 surfaces as
the terminal HTTP-401 failure while a failed re-authentication surfaces as
the terminal null result, with no third request issued. -/
theorem request_single_reauth_retry (a l ra : Bool) (t1 t2 : HttpTry)
    (b b2 : String) :
    ((clientRequest a l ra t1 t2).primaryRequests ≤ 2 ∧
     (clientRequest a l ra t1 t2).reAuthRuns ≤ 1) ∧
    ((clientRequest true l true (.ok 401 b) t2).primaryRequests = 2 ∧
     (clientRequest true l true (.ok 401 b) t2).reAuthRuns = 1) ∧
    clientRequest true l true (.ok 401 b) (.ok 401 b2) = ⟨.errHttp 401, 2, 1⟩ ∧
    clientRequest true l false (.ok 401 b) t2 = ⟨.noneResult, 1, 1⟩ := by
  refine ⟨?_, ?_, ?_, ?_⟩
  · unfold clientRequest
    split
    · simp
    · rcases t1 with ⟨s, body⟩ | _ | _
      · simp only []
        split_ifs <;> (try split) <;> simp
      · simp
      · simp
  · cases t2 <;> simp [clientRequest]
  · simp [clientRequest, finishResponse]
  · simp [clientRequest]

/-! ## Client construction (`GenericAPIClient.__init__`) -/

/-- Python `s.rstrip('/')`. -/
def rstripSlash (s : String) : String :=
  ⟨List.rdropWhile (fun c : Char => c == '/') s.data⟩

/-- URL validation and normalization in `GenericAPIClient.__init__`
(generic_api_client.py lines 32–41); `none` models the `ValueError` raised
on an empty URL, so no client is created. -/
def genericClientInit (base_url : String) : Option String :=
  if base_url = "" then none
  else
    let u :=
      if startsWithStr "http://" base_url || startsWithStr "https://" base_url
      then base_url
      else "https://" ++ base_url
    some (rstripSlash u)

/-- Right-stripping ignores an appended run of stripped characters. -/
lemma rdropWhile_append_sat {p : Char → Bool} (l₁ : List Char) {l₂ : List Char}
    (h : ∀ x ∈ l₂, p x = true) :
    List.rdropWhile p (l₁ ++ l₂) = List.rdropWhile p l₁ := by
  induction l₂ using List.reverseRecOn with
  | nil => simp
  | append_singleton l₂ x ih =>
    rw [← List.append_assoc, List.rdropWhile_concat_pos _ _ _ (h x (by simp)),
      ih (fun y hy => h y (by simp [hy]))]

/-- `rdropWhile` and `rtakeWhile` split a list. -/
lemma rdropWhile_append_rtakeWhile (p : Char → Bool) (l : List Char) :
    List.rdropWhile p l ++ List.rtakeWhile p l = l := by
  simp only [List.rdropWhile, List.rtakeWhile]
  rw [← List.reverse_append, List.takeWhile_append_dropWhile, List.reverse_reverse]

/-- A right-stripped list never ends in a stripped character. -/
lemma rdropWhile_not_suffix (l : List Char) :
    (['/'].isSuffixOf (List.rdropWhile (fun c : Char => c == '/') l)) = false := by
  by_contra hcon
  rw [Bool.not_eq_false, List.isSuffixOf_iff_suffix] at hcon
  obtain ⟨t, ht⟩ := hcon
  have hid := List.rdropWhile_idempotent (fun c : Char => c == '/') l
  rw [← ht, List.rdropWhile_concat_pos _ _ _ (by simp)] at hid
  have hlen := List.IsPrefix.length_le ( List.rdropWhile_prefix (fun c : Char => c == '/') t)
  rw [hid] at hlen
  simp at hlen

/-- Right-stripping slashes from `sch ++ w`: either `w` is all slashes, or
the leading segment `sch` survives in the result. -/
lemma rdropWhile_scheme (sch w : List Char) :
    (∀ x ∈ w, x = '/') ∨
      sch <+: List.rdropWhile (fun c : Char => c == '/') (sch ++ w) := by
  by_cases hall : ∀ x ∈ w, x = '/'
  · exact Or.inl hall
  · right
    push_neg at hall
    obtain ⟨c, hcmem, hc⟩ := hall
    have hsplit := rdropWhile_append_rtakeWhile (fun c : Char => c == '/') (sch ++ w)
    have hlen : sch.length ≤
        (List.rdropWhile (fun c : Char => c == '/') (sch ++ w)).length := by
      by_contra hlt
      push_neg at hlt
      have hdsch : List.rdropWhile (fun c : Char => c == '/') (sch ++ w) <+: sch :=
        List.prefix_of_prefix_length_le
          ( List.rdropWhile_prefix _ (sch ++ w)) (List.prefix_append sch w) hlt.le
      obtain ⟨e, he⟩ := hdsch
      have hew : e ++ w = List.rtakeWhile (fun c : Char => c == '/') (sch ++ w) := by
        have h2 : List.rdropWhile (fun c : Char => c == '/') (sch ++ w) ++ (e ++ w) =
            List.rdropWhile (fun c : Char => c == '/') (sch ++ w) ++
              List.rtakeWhile (fun c : Char => c == '/') (sch ++ w) := by
          rw [← List.append_assoc, he, hsplit]
        exact List.append_cancel_left h2
      have hct : c ∈ List.rtakeWhile (fun c : Char => c == '/') (sch ++ w) := by
        rw [← hew]; exact List.mem_append_right e hcmem
      have := List.mem_rtakeWhile_imp hct
      simp at this
      exact hc this
    exact List.prefix_of_prefix_length_le (List.prefix_append sch w)
      ( List.rdropWhile_prefix _ (sch ++ w)) hlen

/-- C10 counterexample: the degenerate input `"http://"` passes the
non-empty check, keeps its scheme, and the trailing-slash strip then eats
into the scheme separator, producing a base URL `"http:"` that no longer
begins with `http://` or `https://` — refuting the claim that every
constructed client's base URL begins with one of the two prefixes. -/
theorem client_init_scheme_counterexample :
    genericClientInit "http://" = some "http:" ∧
    startsWithStr "http://" "http:" = false ∧
    startsWithStr "https://" "http:" = false := by
  decide

/-- C10 (amended): for every non-empty input the constructor succeeds and
yields a non-empty base URL with no trailing slash which begins with
`http://` or `https://` — except for degenerate inputs whose part after the
scheme consists only of slashes, which collapse to the bare `"http:"` or
`"https:"`. -/
theorem client_init_normalization (s : String) (h : s ≠ "") :
    ∃ u, genericClientInit s = some u ∧ u ≠ "" ∧ endsWithStr "/" u = false ∧
      (startsWithStr "http://" u = true ∨ startsWithStr "https://" u = true ∨
        u = "http:" ∨ u = "https:") := by
  unfold genericClientInit
  rw [if_neg h]
  refine ⟨_, rfl, ?_⟩
  set v := (if startsWithStr "http://" s || startsWithStr "https://" s
    then s else "https://" ++ s) with hv
  have hsch : ∃ sch w, (sch = "http://".data ∨ sch = "https://".data) ∧
      v.data = sch ++ w := by
    rw [hv]
    split
    next hcond =>
      rcases Bool.or_eq_true_iff.mp hcond with hpre | hpre
      · obtain ⟨w, hw⟩ := (List.isPrefixOf_iff_prefix).mp hpre
        exact ⟨"http://".data, w, Or.inl rfl, hw.symm⟩
      · obtain ⟨w, hw⟩ := (List.isPrefixOf_iff_prefix).mp hpre
        exact ⟨"https://".data, w, Or.inr rfl, hw.symm⟩
    next => exact ⟨"https://".data, s.data, Or.inr rfl, String.data_append _ _⟩
  obtain ⟨sch, w, hschemes, hdata⟩ := hsch
  have hdata' : (rstripSlash v).data =
      List.rdropWhile (fun c : Char => c == '/') (sch ++ w) := by
    simp only [rstripSlash, hdata]
  refine ⟨?_, ?_, ?_⟩
  · intro hnil
    have : (rstripSlash v).data = [] := by rw [hnil]
    rw [hdata', List.rdropWhile_eq_nil_iff] at this
    have hh : 'h' ∈ sch ++ w := by
      rcases hschemes with hsc | hsc <;> rw [hsc] <;> simp
    have := this 'h' hh
    simp at this
  · show (List.isSuffixOf "/".data (rstripSlash v).data) = false
    rw [hdata']
    exact rdropWhile_not_suffix (sch ++ w)
  · rcases rdropWhile_scheme sch w with hall | hpre
    · have hstrip : (rstripSlash v).data =
          List.rdropWhile (fun c : Char => c == '/') sch := by
        rw [hdata']
        exact rdropWhile_append_sat sch (fun x hx => by simp [hall x hx])
      rcases hschemes with hsc | hsc
      · refine Or.inr (Or.inr (Or.inl (String.ext ?_)))
        rw [hstrip, hsc]; decide
      · refine Or.inr (Or.inr (Or.inr (String.ext ?_)))
        rw [hstrip, hsc]; decide
    · rcases hschemes with hsc | hsc
      · refine Or.inl ?_
        show ("http://".data.isPrefixOf (rstripSlash v).data) = true
        rw [hdata', List.isPrefixOf_iff_prefix, ← hsc]
        exact hpre
      · refine Or.inr (Or.inl ?_)
        show ("https://".data.isPrefixOf (rstripSlash v).data) = true
        rw [hdata', List.isPrefixOf_iff_prefix, ← hsc]
        exact hpre

/-- Witness for C10 (amended) at a concrete input. -/
theorem client_init_normalization_witness :
    ∃ u, genericClientInit "portainer.local/" = some u ∧ u ≠ "" ∧
      endsWithStr "/" u = false ∧
      (startsWithStr "http://" u = true ∨ startsWithStr "https://" u = true ∨
        u = "http:" ∨ u = "https:") :=
  client_init_normalization "portainer.local/" (by decide)

/-! ## Detection scheduler and sync cycle (`src/dashboard/utils/traefik_service.py`) -/

/-- Python `s.lower().replace(' ', '')`. -/
def lowerNoSpaces (s : String) : String :=
  ⟨(s.data.map Char.toLower).filter (fun c => c != ' ')⟩

/-- The fields of an existing `Service` row that `sync_traefik_services`
reads or writes (timestamps in seconds; Python's falsy `''` models an unset
string field and `none` a null timestamp). -/
structure SvcState where
  name : String
  url : String
  status : SStatus
  statusChangedAt : Option Nat
  lastChecked : Option Nat
  apiUrl : String
  apiUsername : String
  apiPassword : String
  apiType : String
  apiDetected : Bool
  apiEndpoint : String
  apiLastDetected : Option Nat
  apiDetectionAttempts : Nat
  apiNextCheck : Option Nat
  deriving DecidableEq, Repr

/-- One `service_data` dict built by `TraefikService.discover_services`. -/
structure ServiceData where
  name : String
  url : String
  status : SStatus
  deriving DecidableEq, Repr

/-- Outcome of `APIDetector.detect_api` for one target: found (with the
detected type and endpoint it returned), not found, or an exception raised
during detection. -/
inductive DetectOutcome
  | found (apiType : String) (endpoint : String)
  | notFound
  | errored
  deriving DecidableEq, Repr

/-- Seconds per day, for the `timedelta.days` computation. -/
def secondsPerDay : Nat := 86400

/-- The `should_detect` decision of `sync_traefik_services`
(traefik_service.py lines 256–280): the initial value (line 256), the
throttle after five failed attempts (lines 259–273), and the seven-day
re-verification override (lines 276–280). -/
def shouldDetect : Option SvcState → Bool → Nat → Bool
  | none, _, _ => true
  | some e, force, now =>
    let sd0 := force || !e.apiDetected
    let sd1 :=
      if 5 ≤ e.apiDetectionAttempts ∧ force = false then
        match e.apiNextCheck with
        | some t => if now < t then false else sd0
        | none => sd0
      else sd0
    match e.apiLastDetected with
    | some l => if 7 < (now - l) / secondsPerDay then true else sd1
    | none => sd1

/-- The seven-day staleness test of traefik_service.py lines 276–278. -/
def staleDetection (e : SvcState) (now : Nat) : Bool :=
  match e.apiLastDetected with
  | some l => decide (7 < (now - l) / secondsPerDay)
  | none => false

/-- One pass of the `sync_traefik_services` per-service loop over an
existing target (traefik_service.py lines 239–370): the manual-credential
short-circuit (lines 287–291), the probe with success/failure bookkeeping
(lines 292–330), and the `defaults` assembly (lines 332–365).  `base` is
the row written when no API was detected; `detected` the row written when
it was. -/
def syncStep (e : SvcState) (sd : ServiceData) (force : Bool) (now : Nat)
    (probe : DetectOutcome) : SvcState :=
  let statusChanged := e.status ≠ sd.status
  let base : SvcState :=
    { name := sd.name
      url := sd.url
      status := sd.status
      statusChangedAt := if statusChanged then some now else e.statusChangedAt
      lastChecked := some now
      apiUrl := e.apiUrl
      apiUsername := e.apiUsername
      apiPassword := e.apiPassword
      apiType := e.apiType
      apiDetected := false
      apiEndpoint := e.apiEndpoint
      apiLastDetected := e.apiLastDetected
      apiDetectionAttempts := e.apiDetectionAttempts
      apiNextCheck := e.apiNextCheck }
  let detected := fun (detType detEp : String) =>
    { base with
      apiDetected := true
      apiLastDetected := some now
      apiDetectionAttempts := 0
      apiNextCheck := (none : Option Nat)
      apiType := if detType ≠ "" then detType else e.apiType
      apiEndpoint := if detEp ≠ "" then detEp else e.apiEndpoint
      apiUrl := if e.apiUrl = "" then sd.url else e.apiUrl }
  if e.apiUsername ≠ "" then
    detected (if e.apiType ≠ "" then e.apiType else lowerNoSpaces sd.name) e.apiEndpoint
  else if shouldDetect (some e) force now then
    match probe with
    | .found t ep => detected t ep
    | .notFound =>
      { base with
        apiDetectionAttempts := e.apiDetectionAttempts + 1
        apiNextCheck := if 5 ≤ e.apiDetectionAttempts + 1 then some (now + 300)
          else e.apiNextCheck }
    | .errored =>
      { base with
        apiDetectionAttempts := e.apiDetectionAttempts + 1
        apiNextCheck := if 5 ≤ e.apiDetectionAttempts + 1 then some (now + 300)
          else e.apiNextCheck }
  else base

/-- Unfolding of `shouldDetect` on an existing target. -/
lemma shouldDetect_some (e : SvcState) (force : Bool) (now : Nat) :
    shouldDetect (some e) force now =
      (let sd0 := force || !e.apiDetected
       let sd1 :=
         if 5 ≤ e.apiDetectionAttempts ∧ force = false then
           match e.apiNextCheck with
           | some t => if now < t then false else sd0
           | none => sd0
         else sd0
       match e.apiLastDetected with
       | some l => if 7 < (now - l) / secondsPerDay then true else sd1
       | none => sd1) :=
  rfl

/-- C5 counterexample: a target currently marked `api_detected = true` with
`detection_attempts = 5`, `next_check = some 0`, recent `last_detected
= some 10`; with `force` unset at `now = 10 ≥ next_check` the claim demands
`true`, but once the retry window opens the decision falls back to the
initial value `not api_detected` (traefik_service.py line 256), which is
`false`. -/
theorem should_detect_window_counterexample :
    (⟨"svc", "http://svc", .up, none, none, "", "", "", "",
      true, "", some 10, 5, some 0⟩ : SvcState).apiDetectionAttempts ≥ 5 ∧
    (⟨"svc", "http://svc", .up, none, none, "", "", "", "",
      true, "", some 10, 5, some 0⟩ : SvcState).apiNextCheck = some 0 ∧
    shouldDetect (some ⟨"svc", "http://svc", .up, none, none, "", "", "", "",
      true, "", some 10, 5, some 0⟩) false 10 = false := by
  decide

/-- C5 (amended): `force` always allows detection; staleness (more than 7
days since the last successful detection) always allows it; with `force`
unset, at least five attempts and a set `next_check`, detection is refused
while `now < next_check` (unless stale) and is allowed again once `now ≥
next_check` provided the target is not currently marked detected. -/
theorem should_detect_characterization (e : SvcState) (force : Bool) (now t : Nat) :
    (force = true → shouldDetect (some e) force now = true) ∧
    (staleDetection e now = true → shouldDetect (some e) force now = true) ∧
    (force = false → 5 ≤ e.apiDetectionAttempts → e.apiNextCheck = some t →
      now < t → staleDetection e now = false →
      shouldDetect (some e) force now = false) ∧
    (force = false → 5 ≤ e.apiDetectionAttempts → e.apiNextCheck = some t →
      t ≤ now → e.apiDetected = false →
      shouldDetect (some e) force now = true) := by
  refine ⟨fun hf => ?_, fun hs => ?_, fun hf ha hn hlt hst => ?_,
    fun hf ha hn hge hd => ?_⟩
  · subst hf
    unfold shouldDetect
    cases hld : e.apiLastDetected <;> simp [hld]
  · unfold staleDetection at hs
    unfold shouldDetect
    cases hld : e.apiLastDetected <;> rw [hld] at hs <;> simp_all
  · subst hf
    unfold staleDetection at hst
    rw [shouldDetect_some, hn]
    cases hld : e.apiLastDetected <;> rw [hld] at hst <;>
      simp_all [ha, hlt]
  · subst hf
    rw [shouldDetect_some, hn]
    have hnlt : ¬ now < t := Nat.not_lt.mpr hge
    cases hld : e.apiLastDetected <;> simp_all [ha, hd, hnlt]

/-- Witness for C5 (amended): a throttled, never-detected target one
attempt over the limit, checked before its retry window. -/
theorem should_detect_characterization_witness :
    shouldDetect (some ⟨"svc", "http://svc", .up, none, none, "", "", "", "",
      false, "", none, 5, some 20⟩) false 10 = false :=
  (should_detect_characterization ⟨"svc", "http://svc", .up, none, none, "",
      "", "", "", false, "", none, 5, some 20⟩ false 10 20).2.2.1
    rfl (by decide) rfl (by decide) (by decide)

/-- C6 counterexample: an existing target with a stored API username and
`detection_attempts = 3`, `next_check = some 50`: the sync cycle marks it
detected through the manual-credential short-circuit without any successful
detection (the probe slot, never consulted, reports not-found), yet resets
`detection_attempts` to 0 and clears `next_check` — refuting
"reset … exactly when detection succeeds". -/
theorem sync_manual_reset_counterexample :
    (syncStep ⟨"svc", "http://svc", .up, none, none, "", "admin", "pw", "",
        false, "", none, 3, some 50⟩ ⟨"Svc", "http://svc", .up⟩ false 10
        .notFound).apiDetectionAttempts = 0 ∧
    (syncStep ⟨"svc", "http://svc", .up, none, none, "", "admin", "pw", "",
        false, "", none, 3, some 50⟩ ⟨"Svc", "http://svc", .up⟩ false 10
        .notFound).apiNextCheck = none := by
  decide

/-- C6 (amended): across a sync cycle on an existing target, the row ends
marked detected exactly when detection succeeded or the manual-credential
short-circuit fired; `detection_attempts` is reset to 0 and `next_check`
cleared exactly on those cycles (and never decreases otherwise); every
attempted detection that fails or errors increments `detection_attempts` by
exactly one; and `next_check` is (re)set — always to `now + 5 minutes` —
only once the incremented attempt count has reached 5. -/
theorem sync_attempt_bookkeeping (e : SvcState) (sd : ServiceData) (force : Bool)
    (now : Nat) (probe : DetectOutcome) :
    ((syncStep e sd force now probe).apiDetected = true ↔
      (e.apiUsername ≠ "" ∨ (shouldDetect (some e) force now = true ∧
        ∃ t ep, probe = .found t ep))) ∧
    ((syncStep e sd force now probe).apiDetected = true →
      (syncStep e sd force now probe).apiDetectionAttempts = 0 ∧
      (syncStep e sd force now probe).apiNextCheck = none) ∧
    ((syncStep e sd force now probe).apiDetected = false →
      e.apiDetectionAttempts ≤ (syncStep e sd force now probe).apiDetectionAttempts) ∧
    (e.apiUsername = "" → shouldDetect (some e) force now = true →
      probe = .notFound ∨ probe = .errored →
      (syncStep e sd force now probe).apiDetectionAttempts =
        e.apiDetectionAttempts + 1 ∧
      (syncStep e sd force now probe).apiNextCheck =
        (if 5 ≤ e.apiDetectionAttempts + 1 then some (now + 300)
         else e.apiNextCheck)) ∧
    ((syncStep e sd force now probe).apiNextCheck ≠ e.apiNextCheck →
      (syncStep e sd force now probe).apiNextCheck ≠ none →
      (syncStep e sd force now probe).apiNextCheck = some (now + 300) ∧
      5 ≤ (syncStep e sd force now probe).apiDetectionAttempts) := by
  by_cases hm : e.apiUsername = ""
  · by_cases hsd : shouldDetect (some e) force now = true
    · cases probe with
      | found t ep => simp [syncStep, hm, hsd]
      | notFound =>
        refine ⟨by simp [syncStep, hm, hsd], by simp [syncStep, hm, hsd],
          by simp [syncStep, hm, hsd], by simp [syncStep, hm, hsd], ?_⟩
        simp only [syncStep, hm, hsd]
        split_ifs <;> simp_all
      | errored =>
        refine ⟨by simp [syncStep, hm, hsd], by simp [syncStep, hm, hsd],
          by simp [syncStep, hm, hsd], by simp [syncStep, hm, hsd], ?_⟩
        simp only [syncStep, hm, hsd]
        split_ifs <;> simp_all
    · simp [syncStep, hm, hsd]
  · simp [syncStep, hm]

/-- Witness for C6 (amended): the fourth failed attempt on a clean target
increments the counter to 5 and arms the five-minute throttle. -/
theorem sync_attempt_bookkeeping_witness :
    (syncStep ⟨"svc", "http://svc", .up, none, none, "", "", "", "",
        false, "", none, 4, none⟩ ⟨"Svc", "http://svc", .up⟩ false 10
        .notFound).apiDetectionAttempts = 5 ∧
    (syncStep ⟨"svc", "http://svc", .up, none, none, "", "", "", "",
        false, "", none, 4, none⟩ ⟨"Svc", "http://svc", .up⟩ false 10
        .notFound).apiNextCheck = some 310 := by
  have h := (sync_attempt_bookkeeping ⟨"svc", "http://svc", .up, none, none,
      "", "", "", "", false, "", none, 4, none⟩ ⟨"Svc", "http://svc", .up⟩
      false 10 .notFound).2.2.2.1 rfl (by decide) (Or.inl rfl)
  exact ⟨h.1, h.2.trans (by decide)⟩

/-- C9: during a sync cycle an existing target with a non-empty stored API
username is marked detected without consulting the probe at all — the
result is identical for every probe outcome — and the cycle is independent
of the stored password: it reads only the username. -/
theorem sync_manual_username_only (e : SvcState) (sd : ServiceData) (force : Bool)
    (now : Nat) (probe probe' : DetectOutcome) (pw : String)
    (h : e.apiUsername ≠ "") :
    (syncStep e sd force now probe).apiDetected = true ∧
    syncStep e sd force now probe = syncStep e sd force now probe' ∧
    syncStep { e with apiPassword := pw } sd force now probe =
      { syncStep e sd force now probe with apiPassword := pw } := by
  refine ⟨by simp [syncStep, h], by simp [syncStep, h], ?_⟩
  simp [syncStep, h]

/-- Witness for C9: a target with a stored username and a stored password,
marked detected with no probe issued. -/
theorem sync_manual_username_only_witness :
    (syncStep ⟨"svc", "http://svc", .up, none, none, "", "admin", "secret",
        "", false, "", none, 0, none⟩ ⟨"Svc", "http://svc", .up⟩ false 10
        .notFound).apiDetected = true :=
  (sync_manual_username_only ⟨"svc", "http://svc", .up, none, none, "",
      "admin", "secret", "", false, "", none, 0, none⟩
    ⟨"Svc", "http://svc", .up⟩ false 10 .notFound .errored "x" (by decide)).1

end HomeLab
